import Mathlib

/-!
Shallow embedding of src/butter/timerfd.py and proofs about the claims of
its specification.

Modelling conventions:
- Python ints are arbitrary precision and the C struct fields (time_t,
  long) are wide enough for every value appearing below, so both are
  modelled as ℤ with no wrap-around.
- Python floats are modelled as exact rationals (ℚ).  Every concrete
  float input used in a theorem below is a dyadic rational whose whole
  computation (modf, multiplication by 10^9) is exact in IEEE double
  precision, so the rational model coincides with the CPython float
  computation at those inputs.
- raising an exception is modelled by returning a value of PyError;
  referencing an undefined global name is modelled by PyError.nameError.
-/

/-- a C struct timespec: seconds and nanoseconds (timerfd.py cdef lines 24-27) -/
structure Timespec where
  tv_sec : ℤ
  tv_nsec : ℤ
deriving Repr, DecidableEq

/-- a C struct itimerspec: interval and initial expiration (cdef lines 29-32) -/
structure Itimerspec where
  it_interval : Timespec
  it_value : Timespec
deriving Repr, DecidableEq

/-- a freshly allocated itimerspec is zeroed, as ffi.new zero-fills -/
def Itimerspec.zero : Itimerspec := ⟨⟨0, 0⟩, ⟨0, 0⟩⟩

/-- a Python numeric argument: the setters branch on isinstance(val, float) -/
inductive PyNum where
  | int (n : ℤ)
  | float (q : ℚ)
deriving Repr, DecidableEq

/-- Python truthiness of a number: nonzero is truthy -/
def PyNum.truthy : PyNum → Bool
  | PyNum.int n => if n = 0 then false else true
  | PyNum.float q => if q = 0 then false else true

/-- truthiness of an optional argument whose default is None (falsy) -/
def optTruthy : Option PyNum → Bool
  | none => false
  | some v => v.truthy

/-- floor of a rational as an integer -/
def ratFloor (q : ℚ) : ℤ := ⌊q⌋

/-- truncation toward zero, the behaviour of Python int() on a float and of
the integer part produced by math.modf -/
def pyTrunc (q : ℚ) : ℤ := if 0 ≤ q then ⌊q⌋ else ⌈q⌉

/-- math.modf: fractional part and integer part, both carrying the sign of
the argument -/
def pyModf (q : ℚ) : ℚ × ℚ := (q - (pyTrunc q : ℚ), (pyTrunc q : ℚ))

/-- Python 3 round on a number: nearest integer, ties to the even one -/
def pyRound (q : ℚ) : ℤ :=
  if q - (ratFloor q : ℚ) < 1/2 then ratFloor q
  else if 1/2 < q - (ratFloor q : ℚ) then ratFloor q + 1
  else if ratFloor q % 2 = 0 then ratFloor q else ratFloor q + 1

/-- the shared body of the reoccuring and one_off setters (timerfd.py lines
246-259 and 286-299): for a float argument, x, y = math.modf(val);
sec = int(y); nano = int(round(1000000000 * x)); for a non-float argument,
sec = val and nano = 0 -/
def timevalOfPyNum : PyNum → Timespec
  | PyNum.float q =>
      Timespec.mk (pyTrunc (pyModf q).2) (pyRound (1000000000 * (pyModf q).1))
  | PyNum.int n => Timespec.mk n 0

namespace TimerSpec

/-- the reoccuring setter (lines 246-259): writes it_interval -/
def set_reoccuring_val (ts : Itimerspec) (val : PyNum) : Itimerspec :=
  { ts with it_interval := timevalOfPyNum val }

/-- the one_off setter (lines 286-299): writes it_value -/
def set_one_off_val (ts : Itimerspec) (val : PyNum) : Itimerspec :=
  { ts with it_value := timevalOfPyNum val }

/-- the one_off getter (lines 282-284): one_off_seconds plus
one_off_nano_seconds divided by 1000000000, Python 3 true division -/
def one_off_float (ts : Itimerspec) : ℚ :=
  (ts.it_value.tv_sec : ℚ) + (ts.it_value.tv_nsec : ℚ) / 1000000000

/-- the dunder bool of TimerSpec (lines 324-325):
False if self.one_off == 0.0 else True -/
def toBool (ts : Itimerspec) : Bool :=
  if one_off_float ts = 0 then false else true

/-- TimerSpec.disable (lines 337-339): self.one_off = 0.0 -/
def disable_spec (ts : Itimerspec) : Itimerspec :=
  set_one_off_val ts (PyNum.float 0)

/-- a Python TimerSpec instance: the wrapped struct plus the stray
instance attribute created by the assignment timer.reoccuring_nano = v in
Timerfd.set_reoccuring (line 402).  reoccuring_nano is not one of the
class properties, so the assignment lands in the instance dict and is
never reflected into the struct. -/
structure Obj where
  timerspec : Itimerspec
  reoccuring_nano_attr : Option PyNum
deriving Repr, DecidableEq

/-- a PyError models a raised Python exception of the given class -/
inductive PyError where
  | valueError (msg : String)
  | osError (msg : String)
  | ioError (msg : String)
  | memoryError (msg : String)
  | nameError (msg : String)
deriving Repr, DecidableEq

/-- TimerSpec constructor (timerfd.py lines 202-239).  Arguments default
to None.  The timerspec clone runs first, then each truthy keyword is
applied in source order; the four branches for reoccuring_seconds,
reoccuring_nano_seconds, one_off_seconds and one_off_nano_seconds read
the undefined names reoccuring_sec, reoccuring_nano, one_off_sec and
one_off_nano, so reaching them raises NameError. -/
def init (reoccuring reoccuring_seconds reoccuring_nano_seconds
    one_off one_off_seconds one_off_nano_seconds : Option PyNum)
    (timerspec : Option Itimerspec) : Except PyError Itimerspec :=
  let s :=
    match timerspec with
    | some t => t
    | none => Itimerspec.zero
  let s :=
    if optTruthy reoccuring then set_reoccuring_val s (reoccuring.getD (PyNum.int 0))
    else s
  if optTruthy reoccuring_seconds then
    Except.error (PyError.nameError "reoccuring_sec")
  else if optTruthy reoccuring_nano_seconds then
    Except.error (PyError.nameError "reoccuring_nano")
  else
    let s :=
      if optTruthy one_off then set_one_off_val s (one_off.getD (PyNum.int 0))
      else s
    if optTruthy one_off_seconds then
      Except.error (PyError.nameError "one_off_sec")
    else if optTruthy one_off_nano_seconds then
      Except.error (PyError.nameError "one_off_nano")
    else
      Except.ok s

/-- Boolean test that a constructor result is a successfully built struct -/
def initOk : Except PyError Itimerspec → Bool
  | Except.ok _ => true
  | Except.error _ => false

end TimerSpec

open TimerSpec (PyError)

/-- Linux errno values used by the module through the errno package -/
def ENOMEM : ℤ := 12
def EFAULT : ℤ := 14
def ENODEV : ℤ := 19
def EINVAL : ℤ := 22
def ENFILE : ℤ := 23
def EMFILE : ℤ := 24

/-- Linux clock ids re-exported by the module (lines 364-365) -/
def CLOCK_REALTIME : ℤ := 0
def CLOCK_MONOTONIC : ℤ := 1

/-- the error branch of timerfd (create, lines 80-96), entered when
timerfd_create returns a negative fd with the given errno.  On EINVAL the
code tests not (clock_type & (CLOCK_MONOTONIC|CLOCK_REALTIME)); on ENODEV
it evaluates the undefined global name OsError, which raises NameError
before any OSError can be constructed. -/
def timerfd_create_error (clock_type err : ℤ) : PyError :=
  if err = EINVAL then
    if Int.land clock_type (Int.lor CLOCK_MONOTONIC CLOCK_REALTIME) = 0 then
      PyError.valueError "clock_type is not one of CLOCK_MONOTONIC or CLOCK_REALTIME"
    else
      PyError.valueError "Invalid value in flags"
  else if err = EMFILE then PyError.osError "Max per process FD limit reached"
  else if err = ENFILE then PyError.osError "Max system FD limit reached"
  else if err = ENODEV then PyError.nameError "OsError"
  else if err = ENOMEM then PyError.memoryError "Insufficent kernel memory available"
  else PyError.valueError ("Unknown Error: " ++ toString err)

/-- the error branch of timerfd_settime (lines 174-195), entered when the
C call returns a negative result with the given errno and the submitted
spec is timer_spec.  On EINVAL the first test reads it_interval.tv_sec
(not tv_nsec) while its message speaks of nano seconds; on ENODEV the
undefined name OsError again raises NameError. -/
def timerfd_settime_error (timer_spec : Itimerspec) (err : ℤ) : PyError :=
  if err = EINVAL then
    if timer_spec.it_interval.tv_sec > 999999999 then
      PyError.valueError "Nano seconds in it_interval is > 999,999,999"
    else if timer_spec.it_value.tv_nsec > 999999999 then
      PyError.valueError "Nano seconds in it_value is > 999,999,999"
    else
      PyError.valueError "flags is invalid or fd not a timerfd"
  else if err = EFAULT then
    PyError.ioError "timer_spec does not point to a valid timer specfication"
  else if err = EMFILE then PyError.osError "Max per process FD limit reached"
  else if err = ENFILE then PyError.osError "Max system FD limit reached"
  else if err = ENODEV then PyError.nameError "OsError"
  else if err = ENOMEM then PyError.memoryError "Insufficent kernel memory available"
  else PyError.valueError ("Unknown Error: " ++ toString err)

namespace Timerfd

/-- Timerfd.set_one_off (timerfd.py lines 386-393): builds a fresh
TimerSpec, then assigns timer.one_off = seconds followed by
timer.one_off = nano_seconds, and submits the result; the spec carried to
timerfd_settime is returned here. -/
def set_one_off_submit (seconds nano_seconds : PyNum) : Itimerspec :=
  let timer := Itimerspec.zero
  let timer := TimerSpec.set_one_off_val timer seconds
  TimerSpec.set_one_off_val timer nano_seconds

/-- Timerfd.set_reoccuring (timerfd.py lines 395-414): builds a fresh
TimerSpec, assigns timer.reoccuring_nano = nano_seconds (a stray instance
attribute, see TimerSpec.Obj), then timer.reoccuring = seconds, then sets
one_off from next_nano_seconds and next_seconds when either is truthy and
from nano_seconds and seconds otherwise; the object carried to
timerfd_settime is returned here. -/
def set_reoccuring_submit (seconds nano_seconds next_seconds next_nano_seconds :
    PyNum) : TimerSpec.Obj :=
  let timer : TimerSpec.Obj := ⟨Itimerspec.zero, none⟩
  let timer : TimerSpec.Obj := { timer with reoccuring_nano_attr := some nano_seconds }
  let timer : TimerSpec.Obj :=
    { timer with timerspec := TimerSpec.set_reoccuring_val timer.timerspec seconds }
  if next_seconds.truthy || next_nano_seconds.truthy then
    let t := { timer with
      timerspec := TimerSpec.set_one_off_val timer.timerspec next_nano_seconds }
    { t with timerspec := TimerSpec.set_one_off_val t.timerspec next_seconds }
  else
    let t := { timer with
      timerspec := TimerSpec.set_one_off_val timer.timerspec nano_seconds }
    { t with timerspec := TimerSpec.set_one_off_val t.timerspec seconds }

/-- a call made to the kernel through os or the C library -/
inductive KernelCall where
  | closeFd (fd : ℤ)
  | settimeFd (fd : ℤ) (spec : Itimerspec)
  | gettimeFd (fd : ℤ)
deriving Repr, DecidableEq

/-- a Timerfd object stores only the raw descriptor (and a spare
TimerSpec); there is no open or closed flag (timerfd.py lines 367-384) -/
structure Obj where
  fd : ℤ
deriving Repr, DecidableEq

/-- Timerfd.close (lines 441-442): unconditionally calls os.close on the
stored descriptor; nothing is recorded and nothing guards a second call -/
def close_calls (t : Obj) : List KernelCall := [KernelCall.closeFd t.fd]

/-- Timerfd.get_current (lines 416-417): calls timerfd_gettime on the
stored descriptor, whatever happened before -/
def get_current_calls (t : Obj) : List KernelCall := [KernelCall.gettimeFd t.fd]

end Timerfd

/-- the kernel timer state visible to gettime, for a timer whose initial
field is zero (disarmed, so no countdown occurs).  Modelled from the
spec: the kernel timer facility of section 6 stores the submitted spec. -/
structure KernelTimer where
  spec : Itimerspec

/-- Modelled from the spec: the kernel set operation (section 6 of the
spec) stores the new spec and returns the previous one. -/
def kernelSet (k : KernelTimer) (newSpec : Itimerspec) : KernelTimer × Itimerspec :=
  (KernelTimer.mk newSpec, k.spec)

/-- Modelled from the spec: the kernel get operation (section 6 of the
spec) returns the current spec without consuming anything. -/
def kernelGet (k : KernelTimer) : Itimerspec := k.spec

/-- Timerfd.disable (timerfd.py lines 455-459): reads the current spec
via timerfd_gettime, zeroes its one_off via TimerSpec.disable, and
resubmits via timerfd_settime -/
def Timerfd.disable_model (k : KernelTimer) : KernelTimer :=
  (kernelSet k (TimerSpec.disable_spec (kernelGet k))).1

/-- decode a little-endian byte list as an unsigned integer -/
def decodeU64LE : List ℕ → ℕ
  | [] => 0
  | b :: rest => b + 256 * decodeU64LE rest

/-- encode the low k bytes of a number, little-endian -/
def encodeU64LE : ℕ → ℕ → List ℕ
  | 0, _ => []
  | k + 1, n => n % 256 :: encodeU64LE k (n / 256)

/-- Modelled from the spec: the kernel read operation (section 6 of the
spec) delivers the timer's expiration counter as an 8-byte unsigned
little-endian quantity. -/
def kernelReadBytes (n : ℕ) : List ℕ := encodeU64LE 8 n

/-- Timerfd.wait (timerfd.py lines 425-439): select until the descriptor
is readable, read 8 bytes, copy them into a uint64 buffer (little-endian
on the supported platforms) and return its value -/
def Timerfd.wait_value (n : ℕ) : ℕ := decodeU64LE (kernelReadBytes n)

/-- C1: Timerfd.set_reoccuring(1, 500000000) with no next values submits
interval {1, 0} and initial {1, 0}: the nano_seconds argument is parked
in the stray reoccuring_nano attribute and never reaches the struct, so
the submitted interval nanosecond component is 0, not 500000000, contrary
to periodic(period, first=period) = {interval: period, initial: period}. -/
theorem set_reoccuring_loses_nano_seconds :
    (Timerfd.set_reoccuring_submit (PyNum.int 1) (PyNum.int 500000000)
        (PyNum.int 0) (PyNum.int 0)).timerspec = ⟨⟨1, 0⟩, ⟨1, 0⟩⟩ ∧
    (Timerfd.set_reoccuring_submit (PyNum.int 1) (PyNum.int 500000000)
        (PyNum.int 0) (PyNum.int 0)).reoccuring_nano_attr =
      some (PyNum.int 500000000) := by
  constructor <;> rfl

/-- C4: Timerfd.set_one_off(5) submits the all-zero (disarmed) spec
because the second assignment timer.one_off = nano_seconds overwrites the
delay, and set_one_off(5, 500000000) puts 500000000 into the initial
seconds slot, contrary to one_shot(delay) = {interval: 0, initial: delay}. -/
theorem set_one_off_overwrites_delay :
    Timerfd.set_one_off_submit (PyNum.int 5) (PyNum.int 0) = Itimerspec.zero ∧
    (Timerfd.set_one_off_submit (PyNum.int 5) (PyNum.int 500000000)).it_value =
      ⟨500000000, 0⟩ := by
  constructor <;> rfl

/-- C5: the create error branch maps ENODEV to a NameError (the undefined
name OsError), not to an OSError mount failure, and maps EINVAL with the
supported clock CLOCK_REALTIME (= 0) to the invalid-clock message because
it tests clock_type & 1 = 0; the settime branch has the same ENODEV
defect.  An unlisted code is mapped to the Unknown Error ValueError
carrying the code. -/
theorem timerfd_error_mapping_defects :
    timerfd_create_error 0 ENODEV = PyError.nameError "OsError" ∧
    timerfd_create_error CLOCK_REALTIME EINVAL =
      PyError.valueError "clock_type is not one of CLOCK_MONOTONIC or CLOCK_REALTIME" ∧
    timerfd_settime_error Itimerspec.zero ENODEV = PyError.nameError "OsError" ∧
    timerfd_create_error 0 99 = PyError.valueError "Unknown Error: 99" := by
  refine ⟨?_, ?_, ?_, ?_⟩ <;> rfl

/-- C6: closing a Timerfd twice issues the kernel close twice (there is
no state tracking and no clean error path), and an operation after close
still contacts the kernel with the stale descriptor. -/
theorem close_has_no_state_tracking :
    Timerfd.close_calls ⟨3⟩ ++ Timerfd.close_calls ⟨3⟩ =
      [Timerfd.KernelCall.closeFd 3, Timerfd.KernelCall.closeFd 3] ∧
    Timerfd.get_current_calls ⟨3⟩ = [Timerfd.KernelCall.gettimeFd 3] := by
  constructor <;> rfl

/-- C7: on EINVAL from settime, a spec whose interval nanoseconds are
2000000000 gets only the generic flags message (the code tests
it_interval.tv_sec), a spec whose initial nanoseconds are 2000000000 gets
the it_value nanosecond message, and a spec whose interval seconds are
1000000001 gets the it_interval nanosecond message. -/
theorem settime_einval_tests_interval_seconds :
    timerfd_settime_error ⟨⟨0, 2000000000⟩, ⟨0, 0⟩⟩ EINVAL =
      PyError.valueError "flags is invalid or fd not a timerfd" ∧
    timerfd_settime_error ⟨⟨0, 0⟩, ⟨0, 2000000000⟩⟩ EINVAL =
      PyError.valueError "Nano seconds in it_value is > 999,999,999" ∧
    timerfd_settime_error ⟨⟨1000000001, 0⟩, ⟨0, 0⟩⟩ EINVAL =
      PyError.valueError "Nano seconds in it_interval is > 999,999,999" := by
  refine ⟨?_, ?_, ?_⟩ <;> rfl

theorem one_off_float_eq_zero_iff (s n : ℤ) (hs : 0 ≤ s) (hn : 0 ≤ n) :
    (s : ℚ) + (n : ℚ) / 1000000000 = 0 ↔ (s = 0 ∧ n = 0) := by
  constructor
  · intro h
    have hs9 : (0 : ℚ) ≤ (s : ℚ) := by exact_mod_cast hs
    have hn9 : (0 : ℚ) ≤ (n : ℚ) / 1000000000 :=
      div_nonneg (by exact_mod_cast hn) (by norm_num)
    obtain ⟨h1, h2⟩ := (add_eq_zero_iff_of_nonneg hs9 hn9).mp h
    refine ⟨by exact_mod_cast h1, ?_⟩
    rw [div_eq_zero_iff] at h2
    rcases h2 with h3 | h3
    · exact_mod_cast h3
    · exact absurd h3 (by norm_num)
  · rintro ⟨h1, h2⟩
    subst h1
    subst h2
    norm_num

/-- C2: the dunder bool of a TimerSpec (hence its enabled property) is
true exactly when the initial expiration field it_value differs from
{0,0}, whatever it_interval holds; this needs the TimeValue invariant
that both components are non-negative. -/
theorem timerSpec_bool_iff_initial_nonzero (ts : Itimerspec)
    (hs : 0 ≤ ts.it_value.tv_sec) (hn : 0 ≤ ts.it_value.tv_nsec) :
    TimerSpec.toBool ts = true ↔ ts.it_value ≠ ⟨0, 0⟩ := by
  have key : TimerSpec.one_off_float ts = 0 ↔
      (ts.it_value.tv_sec = 0 ∧ ts.it_value.tv_nsec = 0) :=
    one_off_float_eq_zero_iff ts.it_value.tv_sec ts.it_value.tv_nsec hs hn
  have hval : ts.it_value = (⟨0, 0⟩ : Timespec) ↔
      (ts.it_value.tv_sec = 0 ∧ ts.it_value.tv_nsec = 0) := by
    cases hv : ts.it_value with
    | mk s n => simp [Timespec.mk.injEq]
  unfold TimerSpec.toBool
  by_cases h : TimerSpec.one_off_float ts = 0
  · rw [if_pos h]
    simp only [Bool.false_eq_true, false_iff, not_not]
    exact hval.mpr (key.mp h)
  · rw [if_neg h]
    simp only [true_iff]
    intro hv
    exact h (key.mpr (hval.mp hv))

/-- C2 witness: a spec whose it_value is {0, 1} (one nanosecond) with a
non-trivial interval is armed. -/
theorem timerSpec_bool_iff_initial_nonzero_witness :
    0 ≤ (Itimerspec.mk ⟨5, 5⟩ ⟨0, 1⟩).it_value.tv_sec ∧
    0 ≤ (Itimerspec.mk ⟨5, 5⟩ ⟨0, 1⟩).it_value.tv_nsec ∧
    (TimerSpec.toBool ⟨⟨5, 5⟩, ⟨0, 1⟩⟩ = true ↔
      (Itimerspec.mk ⟨5, 5⟩ ⟨0, 1⟩).it_value ≠ ⟨0, 0⟩) :=
  ⟨by decide, by decide,
    timerSpec_bool_iff_initial_nonzero ⟨⟨5, 5⟩, ⟨0, 1⟩⟩ (by decide) (by decide)⟩

/-- C3: feeding the one_off setter the double 1 - 2^(-31) (an exact
dyadic float just below one second) produces tv_nsec = 1000000000: the
rounded nanosecond value reaches one billion and no carry into tv_sec
happens, so the claimed invariant nanoseconds <= 999999999 fails. -/
theorem one_off_float_nano_reaches_billion :
    (TimerSpec.set_one_off_val Itimerspec.zero
        (PyNum.float (1 - 1/2^31))).it_value = ⟨0, 1000000000⟩ := by
  have htr : pyTrunc (1 - 1/2^31 : ℚ) = 0 := by
    unfold pyTrunc
    rw [if_pos (by norm_num), Int.floor_eq_iff]
    norm_num
  have hmodf : pyModf (1 - 1/2^31 : ℚ) = (1 - 1/2^31, 0) := by
    unfold pyModf
    rw [htr]
    norm_num
  have htr0 : pyTrunc (0 : ℚ) = 0 := by
    unfold pyTrunc
    rw [if_pos le_rfl]
    exact Int.floor_zero
  have hfl : ratFloor (1000000000 * (1 - 1/2^31 : ℚ)) = 999999999 := by
    unfold ratFloor
    rw [Int.floor_eq_iff]
    norm_num
  have hrd : pyRound (1000000000 * (1 - 1/2^31 : ℚ)) = 1000000000 := by
    unfold pyRound
    rw [hfl, if_neg (by norm_num), if_pos (by norm_num)]
    norm_num
  show timevalOfPyNum (PyNum.float (1 - 1/2^31)) = _
  simp only [timevalOfPyNum]
  rw [hmodf]
  rw [Timespec.mk.injEq]
  exact ⟨htr0, hrd⟩

theorem timevalOfPyNum_float_zero : timevalOfPyNum (PyNum.float 0) = ⟨0, 0⟩ := by
  have htr0 : pyTrunc (0 : ℚ) = 0 := by
    unfold pyTrunc
    rw [if_pos le_rfl]
    exact Int.floor_zero
  have hmodf : pyModf (0 : ℚ) = (0, 0) := by
    unfold pyModf
    rw [htr0]
    norm_num
  have hrd : pyRound (0 : ℚ) = 0 := by
    unfold pyRound ratFloor
    rw [Int.floor_zero]
    norm_num
  simp only [timevalOfPyNum]
  rw [hmodf]
  norm_num [htr0, hrd]

/-- C8: Timerfd.disable reads the kernel spec, submits it with it_value
zeroed in both components and it_interval exactly as read, and afterwards
the stored spec is disarmed (its bool is false) and reads back a zero
it_value. -/
theorem disable_zeroes_initial_preserves_interval (k : KernelTimer) :
    (TimerSpec.disable_spec (kernelGet k)).it_value = ⟨0, 0⟩ ∧
    (TimerSpec.disable_spec (kernelGet k)).it_interval = (kernelGet k).it_interval ∧
    TimerSpec.toBool (kernelGet (Timerfd.disable_model k)) = false ∧
    (kernelGet (Timerfd.disable_model k)).it_value = ⟨0, 0⟩ := by
  have h1 : (TimerSpec.disable_spec (kernelGet k)).it_value = (⟨0, 0⟩ : Timespec) := by
    simp only [TimerSpec.disable_spec, TimerSpec.set_one_off_val]
    exact timevalOfPyNum_float_zero
  have h2 : kernelGet (Timerfd.disable_model k) = TimerSpec.disable_spec (kernelGet k) := rfl
  have hofl : TimerSpec.one_off_float (TimerSpec.disable_spec (kernelGet k)) = 0 := by
    unfold TimerSpec.one_off_float
    rw [h1]
    norm_num
  have h3 : TimerSpec.toBool (kernelGet (Timerfd.disable_model k)) = false := by
    rw [h2]
    unfold TimerSpec.toBool
    rw [if_pos hofl]
  refine ⟨h1, rfl, h3, ?_⟩
  rw [h2]
  exact h1

theorem encodeU64LE_length (k n : ℕ) : (encodeU64LE k n).length = k := by
  induction k generalizing n with
  | zero => rfl
  | succ k ih => simp [encodeU64LE, ih]

theorem decodeU64LE_encodeU64LE (k n : ℕ) (h : n < 256 ^ k) :
    decodeU64LE (encodeU64LE k n) = n := by
  induction k generalizing n with
  | zero =>
      simp only [pow_zero] at h
      simp only [encodeU64LE, decodeU64LE]
      omega
  | succ k ih =>
      have hlt : n / 256 < 256 ^ k := by
        have h2 : n < 256 * 256 ^ k := by
          rw [← pow_succ']
          exact h
        exact Nat.div_lt_of_lt_mul h2
      simp only [encodeU64LE, decodeU64LE]
      rw [ih _ hlt]
      omega

/-- C9: wait reads the 8-byte little-endian expiration counter delivered
by the kernel and returns it as the unsigned integer it encodes; with the
kernel delivering at least one expiration, the returned value is never 0. -/
theorem wait_returns_expiration_count (n : ℕ) (h1 : n < 2 ^ 64) (h2 : 1 ≤ n) :
    (kernelReadBytes n).length = 8 ∧ Timerfd.wait_value n = n ∧
      1 ≤ Timerfd.wait_value n := by
  have h256 : n < 256 ^ 8 := by
    have hp : (256 : ℕ) ^ 8 = 2 ^ 64 := by norm_num
    rw [hp]
    exact h1
  have hd : Timerfd.wait_value n = n := decodeU64LE_encodeU64LE 8 n h256
  refine ⟨encodeU64LE_length 8 n, hd, ?_⟩
  rw [hd]
  exact h2

/-- C9 witness: a counter of 3 expirations travels through an 8 byte
payload and is returned unchanged and non-zero. -/
theorem wait_returns_expiration_count_witness :
    3 < 2 ^ 64 ∧ 1 ≤ 3 ∧
      ((kernelReadBytes 3).length = 8 ∧ Timerfd.wait_value 3 = 3 ∧
        1 ≤ Timerfd.wait_value 3) :=
  ⟨by decide, by decide, wait_returns_expiration_count 3 (by decide) (by decide)⟩

/-- C10: whenever any of the four keyword arguments reoccuring_seconds,
reoccuring_nano_seconds, one_off_seconds, one_off_nano_seconds is truthy,
the TimerSpec constructor raises a NameError (it reads an undefined
name); with those four falsy, construction from reoccuring, one_off and
timerspec always succeeds. -/
theorem timerSpec_init_kwargs (r rS rN o oS oN : Option PyNum)
    (t : Option Itimerspec)
    (h : (optTruthy rS || optTruthy rN || optTruthy oS || optTruthy oN) = true) :
    (∃ m, TimerSpec.init r rS rN o oS oN t = Except.error (PyError.nameError m)) ∧
    TimerSpec.initOk (TimerSpec.init r none none o none none t) = true := by
  constructor
  · cases hrs : optTruthy rS with
    | true => exact ⟨"reoccuring_sec", by simp [TimerSpec.init, hrs]⟩
    | false =>
      cases hrn : optTruthy rN with
      | true => exact ⟨"reoccuring_nano", by simp [TimerSpec.init, hrs, hrn]⟩
      | false =>
        cases hos : optTruthy oS with
        | true => exact ⟨"one_off_sec", by simp [TimerSpec.init, hrs, hrn, hos]⟩
        | false =>
          cases hon : optTruthy oN with
          | true =>
              exact ⟨"one_off_nano", by simp [TimerSpec.init, hrs, hrn, hos, hon]⟩
          | false => simp [hrs, hrn, hos, hon] at h
  · simp [TimerSpec.init, TimerSpec.initOk, optTruthy]

/-- C10 witness: reoccuring_seconds = 1 raises the NameError for
reoccuring_sec, while the plain constructor succeeds. -/
theorem timerSpec_init_kwargs_witness :
    (optTruthy (some (PyNum.int 1)) || optTruthy none || optTruthy none ||
        optTruthy none) = true ∧
      ((∃ m, TimerSpec.init none (some (PyNum.int 1)) none none none none none =
          Except.error (PyError.nameError m)) ∧
        TimerSpec.initOk (TimerSpec.init none none none none none none none) = true) :=
  ⟨by decide,
    timerSpec_init_kwargs none (some (PyNum.int 1)) none none none none none (by decide)⟩
